import Mathlib

/-!
# apiHandler: `apiRequest` and `TokenManager`

A shallow embedding of `packages/apiHandler/index.js` and
`packages/apiHandler/tokenManager.js`, followed by the properties proved about it.

JavaScript values are an inductive type, an object is the list of its own enumerable
properties, a thrown value is the `error` side of `Except`, and every call that
`apiRequest` makes to the token store or to the host (`JSON.stringify`, `fetch`, the
`Response` readers, `console.error`) is recorded in a trace, in program order. The host
functions `fetch` and the JSON decoder behind `response.json()` are parameters of the
model (`Platform`); the coercions and `JSON.stringify` are written out.
-/

namespace ApiHandler

/-! ## JavaScript values -/

/-- JavaScript values that the options of `apiRequest` and the token slot can hold:
`undefined`, `null`, booleans, integer-valued Numbers (safe integers, so that the decimal
numeral is what `ToString` gives), BigInts, strings, arrays and plain data objects (own
enumerable string-keyed properties, in enumeration order, prototype `Object.prototype`).
Functions, Symbols, non-integer Numbers and cyclic objects are outside the model. -/
inductive JSVal where
  | undefined
  | null
  | bool (b : Bool)
  | num (n : Int)
  | bigint (n : Int)
  | str (s : String)
  | arr (xs : List JSVal)
  | obj (ps : List (String × JSVal))

/-- The own enumerable properties of a plain object. A real object lists each key once; a
list that repeats a key is read as the object literal with those entries, where the
later entry wins. -/
abbrev Props := List (String × JSVal)

/-- An `Error` instance: the name of its constructor and its `message`. -/
structure JSError where
  name : String
  message : String
deriving DecidableEq, Repr

/-- The value of `obj[k]` restricted to own properties (`none`: no such property); of two
entries with the key `k` the later one is read. -/
def Props.get : Props → String → Option JSVal
  | [], _ => none
  | (k', v) :: ps, k => (Props.get ps k).or (if k' = k then some v else none)

/-- Whether the object has an own property `k`. -/
def Props.hasKey (ps : Props) (k : String) : Bool :=
  ps.any (fun p => decide (p.1 = k))

/-- The effect of `obj[k] = v` (CreateDataProperty): an existing property keeps its place and
takes the new value, a new property is added at the end. -/
def Props.set (ps : Props) (k : String) (v : JSVal) : Props :=
  if Props.hasKey ps k then ps.map (fun p => (p.1, if p.1 = k then v else p.2))
  else ps ++ [(k, v)]

/-- Object spread `{ ...target, ...src }` onto an object under construction: the properties
of `src` are written onto `target` one after the other. -/
def Props.spread (target src : Props) : Props :=
  src.foldl (fun acc p => Props.set acc p.1 p.2) target

/-- The abstract equality `v == null`: true of `null` and `undefined` only. -/
def JSVal.looseEqNull : JSVal → Bool
  | .null => true
  | .undefined => true
  | _ => false

/-- A default parameter value `param = dflt`: the default replaces `undefined` and nothing
else. -/
def JSVal.orDefault (v dflt : JSVal) : JSVal :=
  match v with
  | .undefined => dflt
  | w => w

/-- The TypeError of OrdinaryToPrimitive when neither `toString` nor `valueOf` yields a
primitive (message text as in V8). -/
def cannotConvert : JSError :=
  ⟨"TypeError", "Cannot convert object to primitive value"⟩

mutual
/-- The abstract operation ToString, as a template literal `${v}` applies it. A plain
object gives `"[object Object]"` through `Object.prototype.toString`, unless an own
`toString` property shadows it: that property is data, hence not callable, `valueOf` then
returns no primitive, and the conversion throws. -/
def JSVal.toStr : JSVal → Except JSError String
  | .undefined => .ok "undefined"
  | .null => .ok "null"
  | .bool true => .ok "true"
  | .bool false => .ok "false"
  | .num n => .ok (toString n)
  | .bigint n => .ok (toString n)
  | .str s => .ok s
  | .arr xs =>
    match JSVal.elemStrs xs with
    | .error e => .error e
    | .ok parts => .ok (",".intercalate parts)
  | .obj ps => if Props.hasKey ps "toString" then .error cannotConvert else .ok "[object Object]"
/-- The element strings of `Array.prototype.join`: `undefined` and `null` give the empty
string, any other element its ToString. -/
def JSVal.elemStrs : List JSVal → Except JSError (List String)
  | [] => .ok []
  | x :: xs =>
    match (match x with
           | .undefined => Except.ok ""
           | .null => Except.ok ""
           | v => JSVal.toStr v) with
    | .error e => .error e
    | .ok a =>
      match JSVal.elemStrs xs with
      | .error e => .error e
      | .ok rest => .ok (a :: rest)
end

/-- A hexadecimal digit, lower case. -/
def hexDigit (n : Nat) : Char :=
  if n < 10 then Char.ofNat (48 + n) else Char.ofNat (87 + n)

/-- One code point of QuoteJSONString. -/
def quoteChar (c : Char) : String :=
  if c = '"' then "\\\""
  else if c = '\\' then "\\\\"
  else if c.toNat = 8 then "\\b"
  else if c.toNat = 9 then "\\t"
  else if c.toNat = 10 then "\\n"
  else if c.toNat = 12 then "\\f"
  else if c.toNat = 13 then "\\r"
  else if c.toNat < 32 then
    "\\u00" ++ String.singleton (hexDigit (c.toNat / 16)) ++ String.singleton (hexDigit (c.toNat % 16))
  else String.singleton c

/-- The abstract operation QuoteJSONString. -/
def quoteJSONString (s : String) : String :=
  "\"" ++ String.join (s.toList.map quoteChar) ++ "\""

/-- The TypeError of `JSON.stringify` on a BigInt (message text as in V8). -/
def cannotSerializeBigInt : JSError :=
  ⟨"TypeError", "Do not know how to serialize a BigInt"⟩

mutual
/-- The abstract operation SerializeJSONProperty without replacer and indentation:
`none` is the result `undefined`. No value of the model has a callable `toJSON`. -/
def JSVal.serialize : JSVal → Except JSError (Option String)
  | .undefined => .ok none
  | .null => .ok (some "null")
  | .bool true => .ok (some "true")
  | .bool false => .ok (some "false")
  | .num n => .ok (some (toString n))
  | .bigint _ => .error cannotSerializeBigInt
  | .str s => .ok (some (quoteJSONString s))
  | .arr xs =>
    match JSVal.serializeElems xs with
    | .error e => .error e
    | .ok parts => .ok (some ("[" ++ ",".intercalate parts ++ "]"))
  | .obj ps =>
    match JSVal.serializeMembers ps with
    | .error e => .error e
    | .ok parts => .ok (some ("\x7b" ++ ",".intercalate parts ++ "\x7d"))
/-- SerializeJSONArray: an element without a serialization is written `null`. -/
def JSVal.serializeElems : List JSVal → Except JSError (List String)
  | [] => .ok []
  | x :: xs =>
    match JSVal.serialize x with
    | .error e => .error e
    | .ok r =>
      match JSVal.serializeElems xs with
      | .error e => .error e
      | .ok rest => .ok (r.getD "null" :: rest)
/-- SerializeJSONObject: a property without a serialization is left out. -/
def JSVal.serializeMembers : List (String × JSVal) → Except JSError (List String)
  | [] => .ok []
  | (k, v) :: ps =>
    match JSVal.serialize v with
    | .error e => .error e
    | .ok r =>
      match JSVal.serializeMembers ps with
      | .error e => .error e
      | .ok rest =>
        match r with
        | none => .ok rest
        | some s => .ok ((quoteJSONString k ++ ":" ++ s) :: rest)
end

/-- The function `JSON.stringify(value)`. -/
def JSON.stringify (v : JSVal) : Except JSError (Option String) :=
  JSVal.serialize v

/-- The method `String.prototype.includes` with a string argument: `t` occurs in `s` as a
contiguous run. -/
def includes (s t : String) : Bool :=
  decide (t.toList <:+: s.toList)

/-! ## tokenManager.js

Every method is a function from the state of the instance to the value it returns and the
state it leaves. -/

/-- The class `TokenManager`: its one field. -/
structure TokenManager where
  token : JSVal

/-- The `constructor()`: `this.token = ''`. -/
def TokenManager.new : TokenManager :=
  { token := .str "" }

/-- The method `setToken(token)`: `this.token = token`. -/
def TokenManager.setToken (tm : TokenManager) (token : JSVal) : JSVal × TokenManager :=
  (.undefined, { tm with token := token })

/-- The method `getToken()`: `return this.token`. -/
def TokenManager.getToken (tm : TokenManager) : JSVal × TokenManager :=
  (tm.token, tm)

/-- The method `clearToken()`: `this.token = null`. -/
def TokenManager.clearToken (tm : TokenManager) : JSVal × TokenManager :=
  (.undefined, { tm with token := .null })

/-- A call of one of the three methods. -/
inductive Call where
  | setToken (token : JSVal)
  | getToken
  | clearToken

/-- One call on the instance: the value returned and the state left. -/
def TokenManager.call (tm : TokenManager) : Call → JSVal × TokenManager
  | .setToken token => tm.setToken token
  | .getToken => tm.getToken
  | .clearToken => tm.clearToken

/-- The state after a sequence of calls, made in order. -/
def TokenManager.calls (tm : TokenManager) (cs : List Call) : TokenManager :=
  cs.foldl (fun s c => (s.call c).2) tm

/-- What a call writes into the slot. -/
inductive Write where
  | set (token : JSVal)
  | clear

/-- The write that a call makes, if it makes one. -/
def Call.write : Call → Option Write
  | .setToken token => some (.set token)
  | .getToken => none
  | .clearToken => some .clear

/-- The most recent write in a sequence of calls, if there is one. -/
def lastWrite (cs : List Call) : Option Write :=
  (cs.filterMap Call.write).getLast?

/-- The value that `getToken` is to return after a sequence of calls on a fresh store, in
the words of the specification: the empty string when nothing was written yet, the
argument of the most recent `setToken`, the absent marker `null` after a `clearToken`. -/
def expectedToken (cs : List Call) : JSVal :=
  match lastWrite cs with
  | none => .str ""
  | some (.set x) => x
  | some .clear => .null

/-! ## index.js: the data of a call -/

/-- The argument of `apiRequest`, after its JSDoc: `url`, `method`, `fileType` and
`queryParams` are strings, `headers` is an object; `body` and `accessToken` are any value.
A property the caller leaves out reads as `undefined`: `none` in the typed fields,
`JSVal.undefined` in the other two. -/
structure Options where
  url : String
  method : Option String
  body : JSVal
  fileType : Option String
  queryParams : Option String
  accessToken : JSVal
  headers : Option Props

/-- The second argument of `fetch`, as line 48 builds it; `body = none` is `undefined`. -/
structure FetchOptions where
  method : String
  headers : Props
  body : Option String

/-- A byte sequence. -/
abbrev Bytes := List (Fin 256)

/-- What `apiRequest` reads of a `Response`: its status, the value of
`headers.get('content-type')` (`none` is `null`), and the outcome of reading the body to
its end, which `blob()` and `json()` both start with. -/
structure Response where
  status : Nat
  contentType : Option String
  body : Except JSError Bytes

/-- The property `response.ok`: the status is in the range 200 to 299. -/
def Response.ok (r : Response) : Bool :=
  decide (200 ≤ r.status ∧ r.status ≤ 299)

/-- The host: `fetch`, which resolves to a response or rejects, and the JSON decoder that
`response.json()` applies to the bytes of the body. -/
structure Platform where
  fetch : String → FetchOptions → Except JSError Response
  parseJSON : Bytes → Except JSError JSVal

/-- A call that `apiRequest` makes outside its own code. -/
inductive Event where
  | getToken
  | stringify (body : JSVal)
  | fetch (url : String) (options : FetchOptions)
  | headersGet (name : String)
  | blob
  | json
  | consoleError (error : JSError)

/-- The object built at line 84. -/
structure StructuredError where
  code : String
  message : String
  details : JSError
deriving DecidableEq, Repr

/-- The value a call resolves to: decoded JSON, or the `Buffer` of line 70. -/
inductive Payload where
  | json (data : JSVal)
  | buffer (bytes : Bytes)

/-- The value a call rejects with: the object of line 84, or an error that no handler
caught. -/
inductive Raised where
  | structured (e : StructuredError)
  | native (e : JSError)
deriving DecidableEq, Repr

/-- One call of `apiRequest`: the outside calls it made, in order, how it settled, and
the state of the token store afterwards. -/
structure Run where
  trace : List Event
  outcome : Except Raised Payload
  store : TokenManager

/-! ## index.js: `apiRequest` -/

/-- The variable `accessToken` after line 29, with the store as the read left it and the
call made to it. The parameter default `accessToken = null` comes first. -/
def resolveAccessToken (tm : TokenManager) (o : Options) : JSVal × TokenManager × List Event :=
  let accessToken := o.accessToken.orDefault .null
  if accessToken.looseEqNull then (tm.getToken.1, tm.getToken.2, [Event.getToken])
  else (accessToken, tm, [])

/-- The constant `completeUrl` of line 32; `queryParams` is a string, truthy when not
empty. -/
def completeUrl (url queryParams : String) : String :=
  url ++ (if queryParams ≠ "" then "?" ++ queryParams else "")

/-- The constant `defaultHeaders` of line 35, given the text that `${accessToken}` produced. -/
def defaultHeaders (fileType accessToken : String) : Props :=
  [("Content-Type", .str "application/json"),
   ("Accept", .str fileType),
   ("Authorization", .str ("Bearer " ++ accessToken)),
   ("Cache-Control", .str "private, no-cache, no-store, must-revalidate"),
   ("Expires", .str "-1"),
   ("Pragma", .str "no-cache")]

/-- The constant `mergedHeaders` of line 45: `{ ...defaultHeaders, ...headers }`. -/
def mergedHeaders (fileType accessToken : String) (headers : Props) : Props :=
  Props.spread (Props.spread [] (defaultHeaders fileType accessToken)) headers

/-- The property `body` of line 52, `method === 'POST' || method === 'PATCH' ?
JSON.stringify(body) : undefined`, with the call it makes. -/
def requestBody (method : String) (body : JSVal) : Except JSError (Option String) × List Event :=
  if method = "POST" ∨ method = "PATCH" then (JSON.stringify body, [Event.stringify body])
  else (.ok none, [])

/-- The error thrown at line 61. -/
def httpError (status : Nat) : JSError :=
  ⟨"Error", "HTTP error! Status: " ++ toString status⟩

/-- The TypeError of calling `.includes` on `null` at line 65 (message text as in V8). -/
def cannotReadIncludes : JSError :=
  ⟨"TypeError", "Cannot read properties of null (reading 'includes')"⟩

/-- The object `structuredError` of line 84; `error.message || "..."` takes the fallback
when the message is the empty string. -/
def structuredError (error : JSError) : StructuredError :=
  { code := "NETWORK_ERROR"
    message := if error.message ≠ "" then error.message
               else "An error occurred while making the request."
    details := error }

/-- The `catch` block, lines 79 to 90. -/
def catchBlock (tm : TokenManager) (tr : List Event) (error : JSError) : Run :=
  { trace := tr ++ [Event.consoleError error]
    outcome := .error (.structured (structuredError error))
    store := tm }

/-- Lines 66 to 72: the body as a `Buffer`. -/
def readBuffer (tm : TokenManager) (tr : List Event) (response : Response) : Run :=
  match response.body with
  | .error e => catchBlock tm (tr ++ [Event.blob]) e
  | .ok bytes => { trace := tr ++ [Event.blob], outcome := .ok (.buffer bytes), store := tm }

/-- Lines 76 and 77: the body decoded by `response.json()`. -/
def readJson (env : Platform) (tm : TokenManager) (tr : List Event) (response : Response) : Run :=
  match response.body with
  | .error e => catchBlock tm (tr ++ [Event.json]) e
  | .ok bytes =>
    match env.parseJSON bytes with
    | .error e => catchBlock tm (tr ++ [Event.json]) e
    | .ok data => { trace := tr ++ [Event.json], outcome := .ok (.json data), store := tm }

/-- Lines 60 to 77, on the response that `fetch` resolved to. -/
def handleResponse (env : Platform) (tm : TokenManager) (tr : List Event) (fileType : String)
    (response : Response) : Run :=
  if !response.ok then catchBlock tm tr (httpError response.status)
  else if fileType ≠ "application/json" then
    match response.contentType with
    | none => catchBlock tm (tr ++ [Event.headersGet "content-type"]) cannotReadIncludes
    | some contentType =>
      if includes contentType fileType then
        readBuffer tm (tr ++ [Event.headersGet "content-type"]) response
      else readJson env tm (tr ++ [Event.headersGet "content-type"]) response
  else readJson env tm tr response

/-- The `try` statement, lines 55 to 90. -/
def tryBlock (env : Platform) (tm : TokenManager) (tr : List Event) (fileType url : String)
    (options : FetchOptions) : Run :=
  match env.fetch url options with
  | .error e => catchBlock tm (tr ++ [Event.fetch url options]) e
  | .ok response => handleResponse env tm (tr ++ [Event.fetch url options]) fileType response

/-- The function `apiRequest`. An exception thrown before line 55 is outside the `try`
statement and rejects the call as it is. -/
def apiRequest (env : Platform) (tm : TokenManager) (o : Options) : Run :=
  let method := o.method.getD "GET"
  let body := o.body.orDefault .null
  let fileType := o.fileType.getD "application/json"
  let queryParams := o.queryParams.getD ""
  let headers := o.headers.getD []
  let resolved := resolveAccessToken tm o
  let url := completeUrl o.url queryParams
  match resolved.1.toStr with
  | .error e => { trace := resolved.2.2, outcome := .error (.native e), store := resolved.2.1 }
  | .ok accessToken =>
    let merged := mergedHeaders fileType accessToken headers
    let serialized := requestBody method body
    match serialized.1 with
    | .error e =>
      { trace := resolved.2.2 ++ serialized.2
        outcome := .error (.native e)
        store := resolved.2.1 }
    | .ok text =>
      tryBlock env resolved.2.1 (resolved.2.2 ++ serialized.2) fileType url
        { method := method, headers := merged, body := text }

/-- The requests that a trace hands to `fetch`, in order. -/
def sentOf (tr : List Event) : List (String × FetchOptions) :=
  tr.filterMap (fun ev =>
    match ev with
    | .fetch url options => some (url, options)
    | _ => none)

/-- The requests that a call hands to the transport. -/
def Run.sent (r : Run) : List (String × FetchOptions) :=
  sentOf r.trace


/-! ## Sample hosts and calls -/

/-- The bytes of the text `{"id":1,"name":"a"}`. -/
def itemBytes : Bytes :=
  [123, 34, 105, 100, 34, 58, 49, 44, 34, 110, 97, 109, 101, 34, 58, 34, 97, 34, 125]

/-- A JSON decoder that knows the one text above and the text `{}`. -/
def sampleParse (bytes : Bytes) : Except JSError JSVal :=
  if bytes = itemBytes then .ok (.obj [("id", .num 1), ("name", .str "a")])
  else if bytes = [123, 125] then .ok (.obj [])
  else .error ⟨"SyntaxError", "Unexpected end of JSON input"⟩

/-- A host whose server answers every request with status 201 and the JSON text above. -/
def hostCreated : Platform :=
  { fetch := fun _ _ =>
      .ok { status := 201, contentType := some "application/json; charset=utf-8",
            body := .ok itemBytes }
    parseJSON := sampleParse }

/-- A host whose server answers every request with status 404 and a JSON body. -/
def hostNotFound : Platform :=
  { fetch := fun _ _ =>
      .ok { status := 404, contentType := some "application/json", body := .ok [123, 125] }
    parseJSON := sampleParse }

/-- A host whose server answers every request with three bytes declared as a JPEG image. -/
def hostImage : Platform :=
  { fetch := fun _ _ =>
      .ok { status := 200, contentType := some "image/jpeg; charset=binary",
            body := .ok [255, 216, 255] }
    parseJSON := sampleParse }

/-- A host whose server answers every request with status 200, the body `{}` and no
`Content-Type` header. -/
def hostUntyped : Platform :=
  { fetch := fun _ _ => .ok { status := 200, contentType := none, body := .ok [123, 125] }
    parseJSON := sampleParse }

/-- A host whose `fetch` rejects: the server cannot be reached. -/
def hostDown : Platform :=
  { fetch := fun _ _ => .error ⟨"TypeError", "fetch failed"⟩
    parseJSON := sampleParse }

/-- The call of the example scenario: a POST of `{name: "a"}` with an explicit token. -/
def createItem : Options :=
  { url := "https://api.example.com/items"
    method := some "POST"
    body := .obj [("name", .str "a")]
    fileType := none
    queryParams := none
    accessToken := .str "tok123"
    headers := none }

/-- A GET with a query string, a body that is not sent, one default header replaced and one
header added; the token comes from the store. -/
def listItems : Options :=
  { url := "https://api.example.com/items"
    method := none
    body := .obj [("ignored", .bool true)]
    fileType := none
    queryParams := some "page=2&sort=name"
    accessToken := .undefined
    headers := some [("Accept", .str "text/plain"), ("X-Trace", .str "1")] }

/-- A GET that expects a JPEG image. -/
def getImage : Options :=
  { url := "https://api.example.com/logo"
    method := none
    body := .undefined
    fileType := some "image/jpeg"
    queryParams := none
    accessToken := .null
    headers := none }

/-- A POST whose body holds a BigInt, `{n: 10n}`. -/
def postBigInt : Options :=
  { url := "https://api.example.com/items"
    method := some "POST"
    body := .obj [("n", .bigint 10)]
    fileType := none
    queryParams := none
    accessToken := .str "tok123"
    headers := none }

/-- A POST that leaves `body` out. -/
def postNothing : Options :=
  { url := "https://api.example.com/items"
    method := some "POST"
    body := .undefined
    fileType := none
    queryParams := none
    accessToken := .str "tok123"
    headers := none }

/-- A host whose `fetch` rejects with an error that has no message. -/
def hostSilent : Platform :=
  { fetch := fun _ _ => .error ⟨"Error", ""⟩
    parseJSON := sampleParse }

/-- A POST whose body holds a BigInt, `{n: 10n}`, and that leaves `accessToken` out. -/
def postBigIntNoToken : Options :=
  { url := "https://api.example.com/items"
    method := some "POST"
    body := .obj [("n", .bigint 10)]
    fileType := none
    queryParams := none
    accessToken := .undefined
    headers := none }

/-- A GET of the item list with the given `accessToken` option. -/
def itemsWith (accessToken : JSVal) : Options :=
  { url := "https://api.example.com/items"
    method := none
    body := .undefined
    fileType := none
    queryParams := none
    accessToken := accessToken
    headers := none }

/-- A store that holds the token `stored`. -/
def storeSet : TokenManager :=
  (TokenManager.new.setToken (.str "stored")).2

/-! ## Objects -/

theorem Props.get_append (a b : Props) (k : String) :
    Props.get (a ++ b) k = (Props.get b k).or (Props.get a k) := by
  induction a with
  | nil => simp [Props.get, Option.or_none]
  | cons p a ih =>
    obtain ⟨k1, v1⟩ := p
    simp only [List.cons_append, Props.get, List.append_eq, ih, Option.or_assoc]

theorem Props.get_replace (ps : Props) (k : String) (v : JSVal) (k' : String) :
    Props.get (ps.map (fun p => (p.1, if p.1 = k then v else p.2))) k' =
      if k = k' then (if Props.hasKey ps k then some v else none) else Props.get ps k' := by
  induction ps with
  | nil => simp [Props.get, Props.hasKey]
  | cons p ps ih =>
    obtain ⟨k1, v1⟩ := p
    simp only [List.map_cons, Props.get, ih]
    have hcons : Props.hasKey ((k1, v1) :: ps) k = (decide (k1 = k) || Props.hasKey ps k) := by
      simp [Props.hasKey]
    rw [hcons]
    by_cases hkk : k = k'
    · subst hkk
      by_cases h1 : k1 = k
      · cases hh : Props.hasKey ps k <;> simp [h1]
      · cases hh : Props.hasKey ps k <;> simp [h1]
    · simp only [hkk, if_false]
      by_cases h1 : k1 = k
      · have : ¬ k1 = k' := by rw [h1]; exact hkk
        simp [this]
      · simp [h1]

theorem Props.get_set (ps : Props) (k : String) (v : JSVal) (k' : String) :
    Props.get (Props.set ps k v) k' = if k = k' then some v else Props.get ps k' := by
  unfold Props.set
  cases hk : Props.hasKey ps k with
  | false =>
    simp only [Bool.false_eq_true, if_false, Props.get_append, Props.get]
    by_cases hkk : k = k' <;> simp [hkk]
  | true =>
    simp only [if_true, Props.get_replace, hk]

theorem Props.get_spread (target src : Props) (k : String) :
    Props.get (Props.spread target src) k = (Props.get src k).or (Props.get target k) := by
  unfold Props.spread
  induction src generalizing target with
  | nil => simp [Props.get]
  | cons p src ih =>
    obtain ⟨k1, v1⟩ := p
    simp only [List.foldl_cons, ih, Props.get_set, Props.get, Option.or_assoc]
    by_cases h1 : k1 = k <;> simp [h1]

theorem get_defaultHeaders (fileType accessToken k : String) :
    Props.get (defaultHeaders fileType accessToken) k =
      if k = "Content-Type" then some (.str "application/json")
      else if k = "Accept" then some (.str fileType)
      else if k = "Authorization" then some (.str ("Bearer " ++ accessToken))
      else if k = "Cache-Control" then some (.str "private, no-cache, no-store, must-revalidate")
      else if k = "Expires" then some (.str "-1")
      else if k = "Pragma" then some (.str "no-cache")
      else none := by
  simp only [defaultHeaders, Props.get]
  by_cases h1 : k = "Content-Type"
  · subst h1; simp
  by_cases h2 : k = "Accept"
  · subst h2; simp
  by_cases h3 : k = "Authorization"
  · subst h3; simp
  by_cases h4 : k = "Cache-Control"
  · subst h4; simp
  by_cases h5 : k = "Expires"
  · subst h5; simp
  by_cases h6 : k = "Pragma"
  · subst h6; simp
  simp [h1, h2, h3, h4, h5, h6, eq_comm]

theorem get_mergedHeaders (fileType accessToken : String) (headers : Props) (k : String) :
    Props.get (mergedHeaders fileType accessToken headers) k =
      (Props.get headers k).or (Props.get (defaultHeaders fileType accessToken) k) := by
  simp only [mergedHeaders, Props.get_spread]
  simp [Props.get, Option.or_none]


/-! ## The trace of a call -/

theorem sentOf_append (a b : List Event) : sentOf (a ++ b) = sentOf a ++ sentOf b := by
  simp [sentOf, List.filterMap_append]

theorem tryBlock_sent (env : Platform) (tm : TokenManager) (tr : List Event)
    (fileType url : String) (options : FetchOptions) :
    sentOf (tryBlock env tm tr fileType url options).trace = sentOf tr ++ [(url, options)] := by
  unfold tryBlock handleResponse readBuffer readJson catchBlock
  repeat' split
  all_goals simp [sentOf, List.filterMap_append]

theorem resolveAccessToken_sent (tm : TokenManager) (o : Options) :
    sentOf (resolveAccessToken tm o).2.2 = [] := by
  simp only [resolveAccessToken]
  split <;> simp [sentOf]

theorem requestBody_sent (method : String) (body : JSVal) :
    sentOf (requestBody method body).2 = [] := by
  unfold requestBody
  split <;> simp [sentOf]

theorem apiRequest_sent (env : Platform) (tm : TokenManager) (o : Options) :
    (apiRequest env tm o).sent =
      match (resolveAccessToken tm o).1.toStr with
      | .error _ => []
      | .ok accessToken =>
        match (requestBody (o.method.getD "GET") (o.body.orDefault .null)).1 with
        | .error _ => []
        | .ok text =>
          [(completeUrl o.url (o.queryParams.getD ""),
            { method := o.method.getD "GET"
              headers := mergedHeaders (o.fileType.getD "application/json") accessToken
                (o.headers.getD [])
              body := text })] := by
  simp only [apiRequest, Run.sent]
  cases h1 : (resolveAccessToken tm o).1.toStr with
  | error e => simp [resolveAccessToken_sent]
  | ok accessToken =>
    cases h2 : (requestBody (o.method.getD "GET") (o.body.orDefault .null)).1 with
    | error e => simp [sentOf_append, resolveAccessToken_sent, requestBody_sent]
    | ok text =>
      simp [tryBlock_sent, sentOf_append, resolveAccessToken_sent, requestBody_sent]


theorem mem_sent_iff (env : Platform) (tm : TokenManager) (o : Options)
    (p : String × FetchOptions) :
    p ∈ (apiRequest env tm o).sent ↔
      ∃ accessToken text,
        (resolveAccessToken tm o).1.toStr = .ok accessToken ∧
        (requestBody (o.method.getD "GET") (o.body.orDefault .null)).1 = .ok text ∧
        p = (completeUrl o.url (o.queryParams.getD ""),
              { method := o.method.getD "GET"
                headers := mergedHeaders (o.fileType.getD "application/json") accessToken
                  (o.headers.getD [])
                body := text }) := by
  rw [apiRequest_sent]
  cases h1 : (resolveAccessToken tm o).1.toStr with
  | error e => simp
  | ok accessToken =>
    cases h2 : (requestBody (o.method.getD "GET") (o.body.orDefault .null)).1 with
    | error e => simp
    | ok text => simp

theorem mem_prelude (tm : TokenManager) (o : Options) (method : String) (body : JSVal)
    (ev : Event) (h : ev ∈ (resolveAccessToken tm o).2.2 ++ (requestBody method body).2) :
    ev = Event.getToken ∨ (ev = Event.stringify body ∧ (method = "POST" ∨ method = "PATCH")) := by
  simp only [resolveAccessToken, requestBody] at h
  split at h <;> split at h <;> simp_all

theorem serialize_orDefault (v : JSVal) (r : Option String)
    (h : JSON.stringify (v.orDefault .null) = .ok r) : r.isSome = true := by
  unfold JSON.stringify at h
  cases v with
  | undefined => simp [JSVal.orDefault, JSVal.serialize] at h; simp [← h]
  | null => simp [JSVal.orDefault, JSVal.serialize] at h; simp [← h]
  | bool b => cases b <;> simp [JSVal.orDefault, JSVal.serialize] at h <;> simp [← h]
  | num n => simp [JSVal.orDefault, JSVal.serialize] at h; simp [← h]
  | bigint n => simp [JSVal.orDefault, JSVal.serialize] at h
  | str s => simp [JSVal.orDefault, JSVal.serialize] at h; simp [← h]
  | arr xs =>
    simp only [JSVal.orDefault, JSVal.serialize] at h
    split at h <;> simp at h
    simp [← h]
  | obj ps =>
    simp only [JSVal.orDefault, JSVal.serialize] at h
    split at h <;> simp at h
    simp [← h]

/-! ## Request construction -/

/-- C8. The URL handed to the transport is `url` itself when `queryParams` is the empty
string (or left out), and `url`, a question mark and `queryParams` otherwise, unchanged;
and a call whose request gets built hands exactly one request, with that URL, to the
transport. -/
theorem C8_query_construction (env : Platform) (tm : TokenManager) (o : Options) :
    (∀ p ∈ (apiRequest env tm o).sent,
      p.1 = if o.queryParams.getD "" = "" then o.url
            else o.url ++ "?" ++ o.queryParams.getD "") ∧
    (∀ accessToken text,
      (resolveAccessToken tm o).1.toStr = .ok accessToken →
      (requestBody (o.method.getD "GET") (o.body.orDefault .null)).1 = .ok text →
      (apiRequest env tm o).sent.map Prod.fst =
        [if o.queryParams.getD "" = "" then o.url
         else o.url ++ "?" ++ o.queryParams.getD ""]) := by
  have hurl : completeUrl o.url (o.queryParams.getD "") =
      if o.queryParams.getD "" = "" then o.url else o.url ++ "?" ++ o.queryParams.getD "" := by
    unfold completeUrl
    by_cases hq : o.queryParams.getD "" = ""
    · simp [hq]
    · simp [hq, String.append_assoc]
  constructor
  · intro p hp
    obtain ⟨accessToken, text, _, _, rfl⟩ := (mem_sent_iff env tm o p).mp hp
    exact hurl
  · intro accessToken text h1 h2
    rw [apiRequest_sent, h1]
    simp only [h2, List.map_cons, List.map_nil, hurl]

/-- A call with a query string: the request goes to the URL with `?page=2&sort=name`
appended. -/
theorem C8_query_construction_witness :
    (apiRequest hostNotFound TokenManager.new listItems).sent.map Prod.fst =
      ["https://api.example.com/items?page=2&sort=name"] :=
  (C8_query_construction hostNotFound TokenManager.new listItems).2 "" none rfl rfl

theorem tryBlock_trace (env : Platform) (tm : TokenManager) (tr : List Event)
    (fileType url : String) (options : FetchOptions) :
    ∃ post, (tryBlock env tm tr fileType url options).trace =
        tr ++ Event.fetch url options :: post ∧
      ∀ ev ∈ post, ev = Event.headersGet "content-type" ∨ ev = Event.blob ∨ ev = Event.json ∨
        ∃ e, ev = Event.consoleError e := by
  unfold tryBlock handleResponse readBuffer readJson catchBlock
  repeat' split
  all_goals simp only [List.append_assoc, List.singleton_append, List.cons_append,
    List.append_cancel_left_eq, List.cons.injEq, true_and, exists_eq_left', List.nil_append]
  all_goals simp

theorem mem_trace (env : Platform) (tm : TokenManager) (o : Options) (ev : Event)
    (h : ev ∈ (apiRequest env tm o).trace) :
    ev = Event.getToken ∨
    (ev = Event.stringify (o.body.orDefault .null) ∧
      (o.method.getD "GET" = "POST" ∨ o.method.getD "GET" = "PATCH")) ∨
    (∃ url options, ev = Event.fetch url options) ∨
    ev = Event.headersGet "content-type" ∨ ev = Event.blob ∨ ev = Event.json ∨
    ∃ e, ev = Event.consoleError e := by
  simp only [apiRequest] at h
  have hpre : ∀ ev, ev ∈ (resolveAccessToken tm o).2.2 → ev = Event.getToken := by
    intro ev hev
    have := mem_prelude tm o "GET" .null ev (List.mem_append_left _ hev)
    simpa using this
  split at h
  · exact Or.inl (hpre ev h)
  · split at h
    · rcases mem_prelude tm o _ _ ev h with h' | h'
      · exact Or.inl h'
      · exact Or.inr (Or.inl h')
    · rename_i accessToken _ _ text _
      obtain ⟨post, hpost, hall⟩ := tryBlock_trace env (resolveAccessToken tm o).2.1
        ((resolveAccessToken tm o).2.2 ++
          (requestBody (o.method.getD "GET") (o.body.orDefault .null)).2)
        (o.fileType.getD "application/json") (completeUrl o.url (o.queryParams.getD ""))
        { method := o.method.getD "GET"
          headers := mergedHeaders (o.fileType.getD "application/json") accessToken
            (o.headers.getD [])
          body := text }
      rw [hpost] at h
      rcases List.mem_append.mp h with h' | h'
      · rcases mem_prelude tm o _ _ ev h' with h'' | h''
        · exact Or.inl h''
        · exact Or.inr (Or.inl h'')
      · rcases List.mem_cons.mp h' with h'' | h''
        · exact Or.inr (Or.inr (Or.inl ⟨_, _, h''⟩))
        · exact Or.inr (Or.inr (Or.inr (hall ev h'')))

theorem stringify_mem_trace (env : Platform) (tm : TokenManager) (o : Options)
    (accessToken : String) (text : Option String)
    (hm : o.method.getD "GET" = "POST" ∨ o.method.getD "GET" = "PATCH")
    (h1 : (resolveAccessToken tm o).1.toStr = .ok accessToken)
    (h2 : JSON.stringify (o.body.orDefault .null) = .ok text) :
    Event.stringify (o.body.orDefault .null) ∈ (apiRequest env tm o).trace := by
  simp only [apiRequest, h1, requestBody, hm, if_true, h2]
  obtain ⟨post, hpost, -⟩ := tryBlock_trace env (resolveAccessToken tm o).2.1
    ((resolveAccessToken tm o).2.2 ++ [Event.stringify (o.body.orDefault .null)])
    (o.fileType.getD "application/json") (completeUrl o.url (o.queryParams.getD ""))
    { method := o.method.getD "GET"
      headers := mergedHeaders (o.fileType.getD "application/json") accessToken
        (o.headers.getD [])
      body := text }
  rw [hpost]
  simp

/-- C2. In the header set handed to the transport, a name that the caller's `headers`
holds (compared exactly, case included) carries the caller's value; any other name among
the six defaults carries the default value unchanged; and no other name is present. A
call whose request gets built hands exactly one request to the transport. -/
theorem C2_header_merge (env : Platform) (tm : TokenManager) (o : Options) :
    (∀ p ∈ (apiRequest env tm o).sent,
      ∃ accessToken, (resolveAccessToken tm o).1.toStr = .ok accessToken ∧
        ∀ k : String, Props.get p.2.headers k =
          match Props.get (o.headers.getD []) k with
          | some v => some v
          | none =>
            if k = "Content-Type" then some (.str "application/json")
            else if k = "Accept" then some (.str (o.fileType.getD "application/json"))
            else if k = "Authorization" then some (.str ("Bearer " ++ accessToken))
            else if k = "Cache-Control" then
              some (.str "private, no-cache, no-store, must-revalidate")
            else if k = "Expires" then some (.str "-1")
            else if k = "Pragma" then some (.str "no-cache")
            else none) ∧
    (∀ accessToken text,
      (resolveAccessToken tm o).1.toStr = .ok accessToken →
      (requestBody (o.method.getD "GET") (o.body.orDefault .null)).1 = .ok text →
      ∃ p, (apiRequest env tm o).sent = [p]) := by
  constructor
  · intro p hp
    obtain ⟨accessToken, text, h1, _, rfl⟩ := (mem_sent_iff env tm o p).mp hp
    refine ⟨accessToken, h1, fun k => ?_⟩
    simp only [get_mergedHeaders, get_defaultHeaders]
    cases Props.get (o.headers.getD []) k <;> simp
  · intro accessToken text h1 h2
    rw [apiRequest_sent, h1]
    simp only [h2]
    exact ⟨_, rfl⟩

/-- A call that replaces `Accept` and adds `X-Trace`: the request carries the caller's
`Accept`, the default `Authorization` and `Pragma`, the added `X-Trace`, and nothing under
the lower-case name `accept`. -/
theorem C2_header_merge_witness :
    ∃ p, (apiRequest hostNotFound TokenManager.new listItems).sent = [p] ∧
      Props.get p.2.headers "Accept" = some (.str "text/plain") ∧
      Props.get p.2.headers "Authorization" = some (.str "Bearer ") ∧
      Props.get p.2.headers "Pragma" = some (.str "no-cache") ∧
      Props.get p.2.headers "X-Trace" = some (.str "1") ∧
      Props.get p.2.headers "accept" = none := by
  obtain ⟨p, hp⟩ := (C2_header_merge hostNotFound TokenManager.new listItems).2 "" none rfl rfl
  refine ⟨p, hp, ?_⟩
  have hmem : p ∈ (apiRequest hostNotFound TokenManager.new listItems).sent := by
    rw [hp]; exact List.mem_singleton.mpr rfl
  obtain ⟨accessToken, h1, hk⟩ :=
    (C2_header_merge hostNotFound TokenManager.new listItems).1 p hmem
  have htok : accessToken = "" := by
    have h2 : (resolveAccessToken TokenManager.new listItems).1.toStr = .ok "" := rfl
    rw [h2] at h1
    injection h1 with h1
    exact h1.symm
  subst htok
  refine ⟨?_, ?_, ?_, ?_, ?_⟩
  · rw [hk]; rfl
  · rw [hk]; rfl
  · rw [hk]; rfl
  · rw [hk]; rfl
  · rw [hk]; rfl

/-- C3. The request handed to the transport carries a body exactly when the method is
`POST` or `PATCH`, and then the body is `JSON.stringify` of the `body` option, `null`
standing for a body left out; for any other method string the request goes out without
a body, the option is never serialized, and the method is passed on as it is. -/
theorem C3_body_attachment (env : Platform) (tm : TokenManager) (o : Options) :
    (∀ p ∈ (apiRequest env tm o).sent,
      p.2.method = o.method.getD "GET" ∧
      (p.2.body.isSome = true ↔ (o.method.getD "GET" = "POST" ∨ o.method.getD "GET" = "PATCH")) ∧
      ((o.method.getD "GET" = "POST" ∨ o.method.getD "GET" = "PATCH") →
        JSON.stringify (o.body.orDefault .null) = .ok p.2.body)) ∧
    (¬ (o.method.getD "GET" = "POST" ∨ o.method.getD "GET" = "PATCH") →
      (∀ v, Event.stringify v ∉ (apiRequest env tm o).trace) ∧
      ∀ accessToken, (resolveAccessToken tm o).1.toStr = .ok accessToken →
        ∃ p, (apiRequest env tm o).sent = [p] ∧ p.2.body = none) ∧
    ((o.method.getD "GET" = "POST" ∨ o.method.getD "GET" = "PATCH") →
      ∀ accessToken text, (resolveAccessToken tm o).1.toStr = .ok accessToken →
        JSON.stringify (o.body.orDefault .null) = .ok text →
        Event.stringify (o.body.orDefault .null) ∈ (apiRequest env tm o).trace ∧
        ∃ p, (apiRequest env tm o).sent = [p] ∧ p.2.body = text) ∧
    (JSVal.orDefault .undefined .null = .null ∧ JSON.stringify .null = .ok (some "null")) := by
  refine ⟨?_, ?_, ?_, rfl, rfl⟩
  · intro p hp
    obtain ⟨accessToken, text, _, h2, rfl⟩ := (mem_sent_iff env tm o p).mp hp
    refine ⟨rfl, ?_, ?_⟩
    · simp only [requestBody] at h2
      split at h2
      · rename_i hm
        simp only [hm, iff_true]
        exact serialize_orDefault _ _ h2
      · rename_i hm
        simp only [hm, iff_false]
        injection h2 with h2
        simp [← h2]
    · intro hm
      simp only [requestBody, hm, if_true] at h2
      exact h2
  · intro hm
    constructor
    · intro v hv
      rcases mem_trace env tm o _ hv with h | h | h | h | h | h | h
      · cases h
      · exact hm h.2
      · obtain ⟨_, _, h⟩ := h; cases h
      · cases h
      · cases h
      · cases h
      · obtain ⟨_, h⟩ := h; cases h
    · intro accessToken h1
      rw [apiRequest_sent, h1]
      simp only [requestBody, hm, if_false]
      exact ⟨_, rfl, rfl⟩
  · intro hm accessToken text h1 h2
    constructor
    · exact stringify_mem_trace env tm o accessToken text hm h1 h2
    · rw [apiRequest_sent, h1]
      simp only [requestBody, hm, if_true, h2]
      exact ⟨_, rfl, rfl⟩

/-- The POST of the example scenario carries the text `{"name":"a"}`, a POST without
`body` carries the text `null`, and the GET with a body option carries no body and never
serializes the option. -/
theorem C3_body_attachment_witness :
    (∃ p, (apiRequest hostCreated TokenManager.new createItem).sent = [p] ∧
      p.2.body = some "\x7b\"name\":\"a\"\x7d") ∧
    (∃ p, (apiRequest hostCreated TokenManager.new postNothing).sent = [p] ∧
      p.2.body = some "null") ∧
    (∀ v, Event.stringify v ∉ (apiRequest hostNotFound TokenManager.new listItems).trace) ∧
    (∃ p, (apiRequest hostNotFound TokenManager.new listItems).sent = [p] ∧ p.2.body = none) :=
  ⟨((C3_body_attachment hostCreated TokenManager.new createItem).2.2.1 (Or.inl rfl)
      "tok123" (some "\x7b\"name\":\"a\"\x7d") rfl rfl).2,
   ((C3_body_attachment hostCreated TokenManager.new postNothing).2.2.1 (Or.inl rfl)
      "tok123" (some "null") rfl rfl).2,
   ((C3_body_attachment hostNotFound TokenManager.new listItems).2.1 (by decide)).1,
   ((C3_body_attachment hostNotFound TokenManager.new listItems).2.1 (by decide)).2 "" rfl⟩

/-! ## Response handling -/

theorem resolveAccessToken_store (tm : TokenManager) (o : Options) :
    (resolveAccessToken tm o).2.1 = tm := by
  simp only [resolveAccessToken, TokenManager.getToken]
  split <;> rfl

theorem apiRequest_of_sent (env : Platform) (tm : TokenManager) (o : Options)
    (p : String × FetchOptions) (hp : p ∈ (apiRequest env tm o).sent) :
    apiRequest env tm o =
      tryBlock env tm
        ((resolveAccessToken tm o).2.2 ++
          (requestBody (o.method.getD "GET") (o.body.orDefault .null)).2)
        (o.fileType.getD "application/json") p.1 p.2 := by
  obtain ⟨accessToken, text, h1, h2, rfl⟩ := (mem_sent_iff env tm o p).mp hp
  simp only [apiRequest, h1, h2, resolveAccessToken_store]

theorem httpError_message_ne (status : Nat) : (httpError status).message ≠ "" := by
  intro h
  have hlen := congrArg String.length h
  simp only [httpError, String.length_append] at hlen
  have h20 : "HTTP error! Status: ".length = 20 := by decide
  rw [h20] at hlen
  have h0 : "".length = 0 := rfl
  omega

theorem includes_iff (s t : String) :
    includes s t = true ↔ ∃ a b, a ++ t.toList ++ b = s.toList := by
  simp [includes, List.IsInfix]

/-- C4. When the response that `fetch` resolves to has a status outside 200 to 299, the
call rejects with the structured error whose code is `NETWORK_ERROR`, whatever the
expected media type, the declared content type and the body are; the content type is not
read and the body is neither read nor decoded. -/
theorem C4_failure_status (env : Platform) (tm : TokenManager) (o : Options)
    (p : String × FetchOptions) (response : Response)
    (hp : p ∈ (apiRequest env tm o).sent)
    (hf : env.fetch p.1 p.2 = .ok response)
    (hs : ¬ (200 ≤ response.status ∧ response.status ≤ 299)) :
    (apiRequest env tm o).outcome =
      .error (.structured
        { code := "NETWORK_ERROR"
          message := "HTTP error! Status: " ++ toString response.status
          details := ⟨"Error", "HTTP error! Status: " ++ toString response.status⟩ }) ∧
    (∀ name, Event.headersGet name ∉ (apiRequest env tm o).trace) ∧
    Event.blob ∉ (apiRequest env tm o).trace ∧
    Event.json ∉ (apiRequest env tm o).trace := by
  have hmsg := httpError_message_ne response.status
  have hpre := mem_prelude tm o (o.method.getD "GET") (o.body.orDefault .null)
  rw [apiRequest_of_sent env tm o p hp]
  simp only [tryBlock, hf, handleResponse, Response.ok, hs, decide_False, Bool.not_false,
    if_true, catchBlock, structuredError, hmsg, ne_eq, not_false_eq_true]
  refine ⟨rfl, ?_, ?_, ?_⟩
  · intro name h
    simp only [List.mem_append, List.mem_singleton, reduceCtorEq, or_false] at h
    rcases hpre _ (List.mem_append.mpr h) with h' | h' <;> simp at h'
  · intro h
    simp only [List.mem_append, List.mem_singleton, reduceCtorEq, or_false] at h
    rcases hpre _ (List.mem_append.mpr h) with h' | h' <;> simp at h'
  · intro h
    simp only [List.mem_append, List.mem_singleton, reduceCtorEq, or_false] at h
    rcases hpre _ (List.mem_append.mpr h) with h' | h' <;> simp at h'

/-- A 404 whose body is well-formed JSON: the call rejects with the structured error for
status 404. -/
theorem C4_failure_status_witness :
    (apiRequest hostNotFound TokenManager.new listItems).outcome =
      .error (.structured
        { code := "NETWORK_ERROR"
          message := "HTTP error! Status: 404"
          details := ⟨"Error", "HTTP error! Status: 404"⟩ }) ∧
    Event.json ∉ (apiRequest hostNotFound TokenManager.new listItems).trace :=
  have h := C4_failure_status hostNotFound TokenManager.new listItems
    ("https://api.example.com/items?page=2&sort=name",
      { method := "GET"
        headers := mergedHeaders "application/json" ""
          [("Accept", .str "text/plain"), ("X-Trace", .str "1")]
        body := none })
    { status := 404, contentType := some "application/json", body := .ok [123, 125] }
    (List.mem_singleton.mpr rfl) rfl (by decide)
  ⟨h.1, h.2.2.2⟩

theorem not_mem_prelude (tm : TokenManager) (o : Options) (method : String) (body : JSVal)
    (ev : Event) (h1 : ev ≠ Event.getToken) (h2 : ev ≠ Event.stringify body) :
    ev ∉ (resolveAccessToken tm o).2.2 ++ (requestBody method body).2 := by
  intro h
  rcases mem_prelude tm o method body ev h with h' | h'
  · exact h1 h'
  · exact h2 h'.1

/-- C7. When the expected media type `t` is not `application/json`, the response has a
status in 200 to 299 and declares a content type in which `t` occurs (as a part of it,
not necessarily the whole), the call resolves to the very bytes that the transport
delivered, and `response.json()` is not called. -/
theorem C7_binary_path (env : Platform) (tm : TokenManager) (o : Options) (t : String)
    (p : String × FetchOptions) (response : Response) (contentType : String) (bytes : Bytes)
    (ht : o.fileType = some t) (hne : t ≠ "application/json")
    (hp : p ∈ (apiRequest env tm o).sent)
    (hf : env.fetch p.1 p.2 = .ok response)
    (hs : 200 ≤ response.status ∧ response.status ≤ 299)
    (hct : response.contentType = some contentType)
    (hin : ∃ a b, a ++ t.toList ++ b = contentType.toList)
    (hbody : response.body = .ok bytes) :
    (apiRequest env tm o).outcome = .ok (.buffer bytes) ∧
    Event.blob ∈ (apiRequest env tm o).trace ∧
    Event.json ∉ (apiRequest env tm o).trace := by
  have hinc : includes contentType t = true := (includes_iff contentType t).mpr hin
  have hpre := not_mem_prelude tm o (o.method.getD "GET") (o.body.orDefault .null) Event.json
    (by simp) (by simp)
  rw [apiRequest_of_sent env tm o p hp]
  simp only [tryBlock, hf, handleResponse, Response.ok, hs, and_self, decide_True,
    Bool.not_true, Bool.false_eq_true, if_false, ht, Option.getD_some, ne_eq, hne,
    not_false_eq_true, if_true, hct, hinc, readBuffer, hbody]
  refine ⟨by first | rfl | trivial, by simp, ?_⟩
  intro h
  simp only [List.mem_append, List.mem_singleton, reduceCtorEq, or_false] at h
  exact hpre (List.mem_append.mpr h)

/-- An image declared as `image/jpeg; charset=binary` and expected as `image/jpeg`: the
call resolves to the three bytes of the body. -/
theorem C7_binary_path_witness :
    (apiRequest hostImage TokenManager.new getImage).outcome =
      .ok (.buffer [255, 216, 255]) ∧
    Event.blob ∈ (apiRequest hostImage TokenManager.new getImage).trace ∧
    Event.json ∉ (apiRequest hostImage TokenManager.new getImage).trace :=
  C7_binary_path hostImage TokenManager.new getImage "image/jpeg"
    ("https://api.example.com/logo",
      { method := "GET", headers := mergedHeaders "image/jpeg" "" [], body := none })
    { status := 200, contentType := some "image/jpeg; charset=binary",
      body := .ok [255, 216, 255] }
    "image/jpeg; charset=binary" [255, 216, 255]
    rfl (by decide) (List.mem_singleton.mpr rfl) rfl (by decide) rfl
    ⟨[], "; charset=binary".toList, rfl⟩ rfl

/-- C6, the case the code misses. When the expected media type is not
`application/json` and the response, with a status in 200 to 299, declares no content
type, line 65 calls `.includes` on `null`: the call rejects with the structured error
that wraps this TypeError, and the body is never decoded. -/
theorem C6_missing_content_type (env : Platform) (tm : TokenManager) (o : Options)
    (t : String) (p : String × FetchOptions) (response : Response)
    (ht : o.fileType = some t) (hne : t ≠ "application/json")
    (hp : p ∈ (apiRequest env tm o).sent)
    (hf : env.fetch p.1 p.2 = .ok response)
    (hs : 200 ≤ response.status ∧ response.status ≤ 299)
    (hct : response.contentType = none) :
    (apiRequest env tm o).outcome =
      .error (.structured
        { code := "NETWORK_ERROR"
          message := "Cannot read properties of null (reading 'includes')"
          details := ⟨"TypeError", "Cannot read properties of null (reading 'includes')"⟩ }) ∧
    Event.json ∉ (apiRequest env tm o).trace := by
  have hpre := not_mem_prelude tm o (o.method.getD "GET") (o.body.orDefault .null) Event.json
    (by simp) (by simp)
  rw [apiRequest_of_sent env tm o p hp]
  simp only [tryBlock, hf, handleResponse, Response.ok, hs, and_self, decide_True,
    Bool.not_true, Bool.false_eq_true, if_false, ht, Option.getD_some, ne_eq, hne,
    not_false_eq_true, if_true, hct, catchBlock]
  refine ⟨rfl, ?_⟩
  intro h
  simp only [List.mem_append, List.mem_singleton, reduceCtorEq, or_false] at h
  exact hpre (List.mem_append.mpr h)

/-- A status 200 with the body `{}` and no `Content-Type` header, expected as
`image/jpeg`: the call rejects although the body is well-formed JSON. -/
theorem C6_missing_content_type_witness :
    sampleParse [123, 125] = .ok (.obj []) ∧
    (apiRequest hostUntyped TokenManager.new getImage).outcome =
      .error (.structured
        { code := "NETWORK_ERROR"
          message := "Cannot read properties of null (reading 'includes')"
          details := ⟨"TypeError", "Cannot read properties of null (reading 'includes')"⟩ }) ∧
    Event.json ∉ (apiRequest hostUntyped TokenManager.new getImage).trace :=
  ⟨rfl,
   C6_missing_content_type hostUntyped TokenManager.new getImage "image/jpeg"
    ("https://api.example.com/logo",
      { method := "GET", headers := mergedHeaders "image/jpeg" "" [], body := none })
    { status := 200, contentType := none, body := .ok [123, 125] }
    rfl (by decide) (List.mem_singleton.mpr rfl) rfl (by decide) rfl⟩

/-- The part of C6 that the code meets: with a status in 200 to 299, when the expected
media type is `application/json`, or the declared content type does not contain the
expected one, the body is decoded as JSON; the call resolves to the decoded value, and
rejects with the structured error of the decoder when the body is not well-formed. -/
theorem json_path (env : Platform) (tm : TokenManager) (o : Options)
    (p : String × FetchOptions) (response : Response) (bytes : Bytes)
    (hp : p ∈ (apiRequest env tm o).sent)
    (hf : env.fetch p.1 p.2 = .ok response)
    (hs : 200 ≤ response.status ∧ response.status ≤ 299)
    (hjson : o.fileType.getD "application/json" = "application/json" ∨
      ∃ contentType, response.contentType = some contentType ∧
        ¬ ∃ a b, a ++ (o.fileType.getD "application/json").toList ++ b = contentType.toList)
    (hbody : response.body = .ok bytes) :
    (∀ data, env.parseJSON bytes = .ok data →
      (apiRequest env tm o).outcome = .ok (.json data)) ∧
    (∀ e, env.parseJSON bytes = .error e →
      (apiRequest env tm o).outcome = .error (.structured (structuredError e))) := by
  rw [apiRequest_of_sent env tm o p hp]
  rcases hjson with hj | ⟨contentType, hct, hnin⟩
  · simp only [tryBlock, hf, handleResponse, Response.ok, hs, and_self, decide_True,
      Bool.not_true, Bool.false_eq_true, if_false, hj, ne_eq, not_true_eq_false,
      readJson, hbody]
    constructor
    · intro data hd; simp only [hd]
    · intro e he; simp only [he, catchBlock]
  · have hinc : includes contentType (o.fileType.getD "application/json") = false := by
      rw [← Bool.not_eq_true, includes_iff]; exact hnin
    simp only [tryBlock, hf, handleResponse, Response.ok, hs, and_self, decide_True,
      Bool.not_true, Bool.false_eq_true, if_false, hct, hinc, readJson, hbody]
    constructor
    · intro data hd; split <;> simp only [hd]
    · intro e he; split <;> simp only [he, catchBlock]

/-! ## The failure boundary -/

theorem readJson_error (env : Platform) (tm : TokenManager) (tr : List Event)
    (response : Response) (r : Raised)
    (h : (readJson env tm tr response).outcome = .error r) :
    ∃ d, r = .structured (structuredError d) ∧
      (response.body = .error d ∨
        ∃ bytes, response.body = .ok bytes ∧ env.parseJSON bytes = .error d) := by
  unfold readJson at h
  cases hb : response.body with
  | error e =>
    simp only [hb, catchBlock] at h
    injection h with h
    exact ⟨e, h.symm, Or.inl rfl⟩
  | ok bytes =>
    simp only [hb] at h
    cases hd : env.parseJSON bytes with
    | error e =>
      simp only [hd, catchBlock] at h
      injection h with h
      exact ⟨e, h.symm, Or.inr ⟨bytes, rfl, hd⟩⟩
    | ok data => simp [hd] at h

theorem handleResponse_error (env : Platform) (tm : TokenManager) (tr : List Event)
    (fileType : String) (response : Response) (r : Raised)
    (h : (handleResponse env tm tr fileType response).outcome = .error r) :
    ∃ d, r = .structured (structuredError d) ∧
      ((response.ok = false ∧ d = httpError response.status) ∨
       (response.ok = true ∧ fileType ≠ "application/json" ∧
          response.contentType = none ∧ d = cannotReadIncludes) ∨
       (response.ok = true ∧ response.body = .error d) ∨
       (response.ok = true ∧ ∃ bytes, response.body = .ok bytes ∧
          env.parseJSON bytes = .error d)) := by
  unfold handleResponse at h
  cases hok : response.ok with
  | false =>
    simp only [hok, Bool.not_false, if_true, catchBlock] at h
    injection h with h
    exact ⟨_, h.symm, Or.inl ⟨rfl, rfl⟩⟩
  | true =>
    simp only [hok, Bool.not_true, Bool.false_eq_true, if_false] at h
    have wrap : (∃ d, r = .structured (structuredError d) ∧
          (response.body = .error d ∨
            ∃ bytes, response.body = .ok bytes ∧ env.parseJSON bytes = .error d)) →
        ∃ d, r = .structured (structuredError d) ∧
          ((true = false ∧ d = httpError response.status) ∨
           (true = true ∧ fileType ≠ "application/json" ∧
              response.contentType = none ∧ d = cannotReadIncludes) ∨
           (true = true ∧ response.body = .error d) ∨
           (true = true ∧ ∃ bytes, response.body = .ok bytes ∧
              env.parseJSON bytes = .error d)) := by
      rintro ⟨d, hr, hc⟩
      refine ⟨d, hr, ?_⟩
      rcases hc with hc | hc
      · exact Or.inr (Or.inr (Or.inl ⟨rfl, hc⟩))
      · exact Or.inr (Or.inr (Or.inr ⟨rfl, hc⟩))
    by_cases hft : fileType = "application/json"
    · simp only [hft, ne_eq, not_true_eq_false, if_false] at h
      have := wrap (readJson_error env tm _ response r h)
      simpa [hft] using this
    · simp only [ne_eq, hft, not_false_eq_true, if_true] at h
      cases hct : response.contentType with
      | none =>
        simp only [hct, catchBlock] at h
        injection h with h
        exact ⟨_, h.symm, Or.inr (Or.inl ⟨rfl, hft, rfl, rfl⟩)⟩
      | some contentType =>
        simp only [hct] at h
        cases hinc : includes contentType fileType with
        | false =>
          simp only [hinc, Bool.false_eq_true, if_false] at h
          have := wrap (readJson_error env tm _ response r h)
          simpa [hct] using this
        | true =>
          simp only [hinc, if_true, readBuffer] at h
          cases hb : response.body with
          | error e =>
            simp only [hb, catchBlock] at h
            injection h with h
            exact ⟨e, h.symm, Or.inr (Or.inr (Or.inl ⟨rfl, rfl⟩))⟩
          | ok bytes => simp [hb] at h

theorem tryBlock_error (env : Platform) (tm : TokenManager) (tr : List Event)
    (fileType url : String) (options : FetchOptions) (r : Raised)
    (h : (tryBlock env tm tr fileType url options).outcome = .error r) :
    ∃ d, r = .structured (structuredError d) ∧
      (env.fetch url options = .error d ∨
        ∃ response, env.fetch url options = .ok response ∧
          ((response.ok = false ∧ d = httpError response.status) ∨
           (response.ok = true ∧ fileType ≠ "application/json" ∧
              response.contentType = none ∧ d = cannotReadIncludes) ∨
           (response.ok = true ∧ response.body = .error d) ∨
           (response.ok = true ∧ ∃ bytes, response.body = .ok bytes ∧
              env.parseJSON bytes = .error d))) := by
  unfold tryBlock at h
  split at h
  · rename_i e hf
    simp only [catchBlock] at h
    injection h with h
    exact ⟨e, h.symm, Or.inl hf⟩
  · rename_i response hf
    obtain ⟨d, hr, hc⟩ := handleResponse_error env tm _ fileType response r h
    exact ⟨d, hr, Or.inr ⟨response, hf, hc⟩⟩

/-- C5, the case the code misses. `JSON.stringify(body)` runs at line 52, before the `try`
statement of line 55: when it throws, the call sends nothing and rejects with the
thrown error itself, which is no structured error with code `NETWORK_ERROR`, although
every failure is to be raised in that shape. -/
theorem C5_unwrapped_failure (env : Platform) (tm : TokenManager) (o : Options)
    (accessToken : String) (e : JSError)
    (h1 : (resolveAccessToken tm o).1.toStr = .ok accessToken)
    (h2 : (requestBody (o.method.getD "GET") (o.body.orDefault .null)).1 = .error e) :
    (apiRequest env tm o).outcome = .error (.native e) ∧
    (apiRequest env tm o).sent = [] ∧
    (∀ d, Event.consoleError d ∉ (apiRequest env tm o).trace) ∧
    ¬ ∃ s : StructuredError, (apiRequest env tm o).outcome = .error (.structured s) := by
  have hout : (apiRequest env tm o).outcome = .error (.native e) := by
    simp only [apiRequest, h1, h2]
  refine ⟨hout, ?_, ?_, ?_⟩
  · rw [apiRequest_sent, h1]
    simp only [h2]
  · intro d hd
    simp only [apiRequest, h1, h2] at hd
    rcases mem_prelude tm o _ _ _ hd with h | h
    · cases h
    · cases h.1
  · rintro ⟨s, hs⟩
    rw [hout] at hs
    injection hs with hs
    cases hs

/-- A POST whose body holds a BigInt, `{n: 10n}`, with an explicit token: the call rejects
with the TypeError of `JSON.stringify`, unwrapped, and nothing is sent. -/
theorem C5_unwrapped_failure_witness :
    (apiRequest hostCreated TokenManager.new postBigInt).outcome =
      .error (.native ⟨"TypeError", "Do not know how to serialize a BigInt"⟩) ∧
    (apiRequest hostCreated TokenManager.new postBigInt).sent = [] ∧
    (∀ d, Event.consoleError d ∉ (apiRequest hostCreated TokenManager.new postBigInt).trace) ∧
    ¬ ∃ s : StructuredError,
      (apiRequest hostCreated TokenManager.new postBigInt).outcome = .error (.structured s) :=
  C5_unwrapped_failure hostCreated TokenManager.new postBigInt "tok123"
    ⟨"TypeError", "Do not know how to serialize a BigInt"⟩ rfl rfl

/-- The shape of every rejection. A call that fails after its request was built, inside
the `try` statement (transport failure, status outside 200 to 299, content type missing,
body unreadable or not well-formed JSON), rejects with a structured error: code
`NETWORK_ERROR`, details the original failure, message the original message when that
is not empty and the fixed fallback text otherwise. A call that fails while the request
is built (ToString of the credential, `JSON.stringify` of the body) sends nothing and
rejects with the original error as it is. -/
theorem rejection_shape (env : Platform) (tm : TokenManager) (o : Options) (r : Raised)
    (h : (apiRequest env tm o).outcome = .error r) :
    (∃ p d, (apiRequest env tm o).sent = [p] ∧
      r = .structured
        { code := "NETWORK_ERROR"
          message := if d.message ≠ "" then d.message
                     else "An error occurred while making the request."
          details := d } ∧
      (env.fetch p.1 p.2 = .error d ∨
        ∃ response, env.fetch p.1 p.2 = .ok response ∧
          ((response.ok = false ∧ d = httpError response.status) ∨
           (response.ok = true ∧ o.fileType.getD "application/json" ≠ "application/json" ∧
              response.contentType = none ∧ d = cannotReadIncludes) ∨
           (response.ok = true ∧ response.body = .error d) ∨
           (response.ok = true ∧ ∃ bytes, response.body = .ok bytes ∧
              env.parseJSON bytes = .error d)))) ∨
    (∃ e, (apiRequest env tm o).sent = [] ∧ r = .native e ∧
      ((resolveAccessToken tm o).1.toStr = .error e ∨
       (requestBody (o.method.getD "GET") (o.body.orDefault .null)).1 = .error e)) := by
  have hsent := apiRequest_sent env tm o
  simp only [apiRequest] at h
  cases h1 : (resolveAccessToken tm o).1.toStr with
  | error e =>
    simp only [h1] at h hsent
    injection h with h
    exact Or.inr ⟨e, hsent, h.symm, Or.inl rfl⟩
  | ok accessToken =>
    simp only [h1] at h hsent
    cases h2 : (requestBody (o.method.getD "GET") (o.body.orDefault .null)).1 with
    | error e =>
      simp only [h2] at h hsent
      injection h with h
      exact Or.inr ⟨e, hsent, h.symm, Or.inr rfl⟩
    | ok text =>
      simp only [h2] at h hsent
      obtain ⟨d, hr, hc⟩ := tryBlock_error env _ _ _ _ _ r h
      exact Or.inl ⟨_, d, hsent, hr, hc⟩

/-- Every failure inside the `try` statement is raised, none yields a value: once the
request is sent, a rejection of `fetch`, a status outside 200 to 299, and a body that
cannot be read (on the `Buffer` path and on the JSON path) each make the call reject with
the structured error that wraps the failure. The decoder's failure is in `json_path`. -/
theorem failures_raised (env : Platform) (tm : TokenManager) (o : Options)
    (p : String × FetchOptions) (hp : p ∈ (apiRequest env tm o).sent) :
    (∀ d, env.fetch p.1 p.2 = .error d →
      (apiRequest env tm o).outcome = .error (.structured (structuredError d))) ∧
    (∀ response, env.fetch p.1 p.2 = .ok response → response.ok = false →
      (apiRequest env tm o).outcome =
        .error (.structured (structuredError (httpError response.status)))) ∧
    (∀ response d, env.fetch p.1 p.2 = .ok response → response.ok = true →
      response.body = .error d →
      (o.fileType.getD "application/json" = "application/json" ∨
        response.contentType ≠ none) →
      (apiRequest env tm o).outcome = .error (.structured (structuredError d))) := by
  rw [apiRequest_of_sent env tm o p hp]
  refine ⟨?_, ?_, ?_⟩
  · intro d hf
    simp only [tryBlock, hf, catchBlock]
  · intro response hf hok
    simp only [tryBlock, hf, handleResponse, hok, Bool.not_false, if_true, catchBlock]
  · intro response d hf hok hb hpath
    simp only [tryBlock, hf, handleResponse, hok, Bool.not_true, Bool.false_eq_true, if_false]
    by_cases hft : o.fileType.getD "application/json" = "application/json"
    · simp only [hft, ne_eq, not_true_eq_false, if_false, readJson, hb, catchBlock]
    · simp only [ne_eq, hft, not_false_eq_true, if_true]
      rcases hpath with h | h
      · exact absurd h hft
      · cases hct : response.contentType with
        | none => exact absurd hct h
        | some contentType =>
          simp only []
          by_cases hinc : includes contentType (o.fileType.getD "application/json") = true
          · simp only [hinc, if_true, readBuffer, hb, catchBlock]
          · simp only [hinc, Bool.false_eq_true, if_false, readJson, hb, catchBlock]

/-- A server that cannot be reached: `fetch` rejects with a TypeError, and the call
rejects with the structured error that carries it. -/
theorem transport_failure_example :
    (apiRequest hostDown TokenManager.new createItem).outcome =
      .error (.structured
        { code := "NETWORK_ERROR", message := "fetch failed",
          details := ⟨"TypeError", "fetch failed"⟩ }) :=
  rfl

/-- A failure without a message: the structured error carries the fixed fallback text. -/
theorem fallback_message :
    (apiRequest hostSilent TokenManager.new createItem).outcome =
      .error (.structured
        { code := "NETWORK_ERROR"
          message := "An error occurred while making the request."
          details := ⟨"Error", ""⟩ }) :=
  rfl

/-! ## The token store -/

theorem calls_snoc (tm : TokenManager) (cs : List Call) (c : Call) :
    tm.calls (cs ++ [c]) = ((tm.calls cs).call c).2 := by
  simp [TokenManager.calls, List.foldl_append]

theorem writes_snoc (cs : List Call) (c : Call) :
    lastWrite (cs ++ [c]) =
      match c.write with
      | some w => some w
      | none => lastWrite cs := by
  simp only [lastWrite, List.filterMap_append, List.filterMap_cons, List.filterMap_nil]
  cases c.write <;> simp

theorem calls_token (cs : List Call) :
    (TokenManager.new.calls cs).token = expectedToken cs := by
  induction cs using List.reverseRecOn with
  | nil => rfl
  | append_singleton cs c ih =>
    rw [calls_snoc]
    simp only [expectedToken, writes_snoc] at ih ⊢
    cases c with
    | setToken x => rfl
    | getToken => exact ih
    | clearToken => rfl

theorem lastWrite_gets (gets : List Call) (h : ∀ c ∈ gets, c = Call.getToken) :
    lastWrite gets = none := by
  have : gets.filterMap Call.write = [] := by
    rw [List.filterMap_eq_nil_iff]
    intro c hc
    rw [h c hc]
    rfl
  simp [lastWrite, this]

theorem lastWrite_append_write (cs gets : List Call) (c : Call) (w : Write)
    (hw : c.write = some w) (h : ∀ c ∈ gets, c = Call.getToken) :
    lastWrite (cs ++ c :: gets) = some w := by
  have : gets.filterMap Call.write = [] := by
    rw [List.filterMap_eq_nil_iff]
    intro c hc
    rw [h c hc]
    rfl
  simp [lastWrite, List.filterMap_append, List.filterMap_cons, hw, this]

/-- C9. On a store fresh from its constructor and after any finite sequence of calls,
`getToken` returns a value and leaves the state as it is; the value is the empty string
when the sequence holds no `setToken` and no `clearToken`, the argument of the last
`setToken` when that is the last of them (the empty string included, nothing is
checked), and `null` when the last of them is `clearToken`; and `null` is not the empty
string, so that a cleared store differs from a fresh one. -/
theorem C9_last_write_wins (cs : List Call) :
    (TokenManager.new.calls cs).getToken.1 = expectedToken cs ∧
    (TokenManager.new.calls cs).getToken.2 = TokenManager.new.calls cs ∧
    (∀ (x : JSVal) (gets : List Call), (∀ c ∈ gets, c = Call.getToken) →
      (TokenManager.new.calls (cs ++ Call.setToken x :: gets)).getToken.1 = x) ∧
    (∀ gets : List Call, (∀ c ∈ gets, c = Call.getToken) →
      (TokenManager.new.calls (cs ++ Call.clearToken :: gets)).getToken.1 = .null) ∧
    (∀ gets : List Call, (∀ c ∈ gets, c = Call.getToken) →
      (TokenManager.new.calls gets).getToken.1 = .str "") ∧
    JSVal.null ≠ JSVal.str "" ∧
    (TokenManager.new.clearToken.2).getToken.1 ≠ TokenManager.new.getToken.1 := by
  refine ⟨calls_token cs, rfl, ?_, ?_, ?_, ?_, ?_⟩
  · intro x gets hg
    simp only [TokenManager.getToken, calls_token, expectedToken,
      lastWrite_append_write cs gets (Call.setToken x) (Write.set x) rfl hg]
  · intro gets hg
    simp only [TokenManager.getToken, calls_token, expectedToken,
      lastWrite_append_write cs gets Call.clearToken Write.clear rfl hg]
  · intro gets hg
    simp only [TokenManager.getToken, calls_token, expectedToken, lastWrite_gets gets hg]
  · intro h; cases h
  · intro h; cases h

/-- On the sequence `setToken("a")`, `clearToken()`, `setToken("x")`, `getToken()` the
next `getToken` returns `"x"`; with `clearToken()` in the third place it returns `null`. -/
theorem C9_last_write_wins_witness :
    (TokenManager.new.calls
      ([Call.setToken (.str "a"), Call.clearToken] ++
        Call.setToken (.str "x") :: [Call.getToken])).getToken.1 = .str "x" ∧
    (TokenManager.new.calls
      ([Call.setToken (.str "a"), Call.clearToken] ++
        Call.clearToken :: [Call.getToken])).getToken.1 = .null :=
  ⟨(C9_last_write_wins [Call.setToken (.str "a"), Call.clearToken]).2.2.1 (.str "x")
      [Call.getToken] (fun _ hc => List.mem_singleton.mp hc),
   (C9_last_write_wins [Call.setToken (.str "a"), Call.clearToken]).2.2.2.1
      [Call.getToken] (fun _ hc => List.mem_singleton.mp hc)⟩

/-! ## The credential -/

theorem tryBlock_store (env : Platform) (tm : TokenManager) (tr : List Event)
    (fileType url : String) (options : FetchOptions) :
    (tryBlock env tm tr fileType url options).store = tm := by
  unfold tryBlock handleResponse readBuffer readJson catchBlock
  repeat' split
  all_goals rfl

theorem apiRequest_store (env : Platform) (tm : TokenManager) (o : Options) :
    (apiRequest env tm o).store = tm := by
  simp only [apiRequest]
  split
  · exact resolveAccessToken_store tm o
  · split
    · exact resolveAccessToken_store tm o
    · rw [tryBlock_store, resolveAccessToken_store]

theorem resolveAccessToken_value (tm : TokenManager) (o : Options) :
    (resolveAccessToken tm o).1 =
      match o.accessToken with
      | .undefined => tm.token
      | .null => tm.token
      | v => v := by
  cases h : o.accessToken <;>
    simp [resolveAccessToken, h, JSVal.orDefault, JSVal.looseEqNull, TokenManager.getToken]

theorem getToken_mem_trace (env : Platform) (tm : TokenManager) (o : Options) :
    Event.getToken ∈ (apiRequest env tm o).trace ↔
      (o.accessToken = .null ∨ o.accessToken = .undefined) := by
  have hres : Event.getToken ∈ (resolveAccessToken tm o).2.2 ↔
      (o.accessToken = .null ∨ o.accessToken = .undefined) := by
    cases h : o.accessToken <;>
      simp [resolveAccessToken, h, JSVal.orDefault, JSVal.looseEqNull]
  have hbody : Event.getToken ∉
      (requestBody (o.method.getD "GET") (o.body.orDefault .null)).2 := by
    simp only [requestBody]
    split <;> simp
  rw [← hres]
  simp only [apiRequest]
  split
  · rfl
  · split
    · simp [List.mem_append, hbody]
    · rename_i accessToken _ _ text _
      obtain ⟨post, hpost, hall⟩ := tryBlock_trace env (resolveAccessToken tm o).2.1
        ((resolveAccessToken tm o).2.2 ++
          (requestBody (o.method.getD "GET") (o.body.orDefault .null)).2)
        (o.fileType.getD "application/json") (completeUrl o.url (o.queryParams.getD ""))
        { method := o.method.getD "GET"
          headers := mergedHeaders (o.fileType.getD "application/json") accessToken
            (o.headers.getD [])
          body := text }
      rw [hpost]
      have hpost' : Event.getToken ∉ post := by
        intro hmem
        rcases hall _ hmem with h | h | h | ⟨e, h⟩ <;> cases h
      simp [List.mem_append, hbody, hpost']

/-- C1. The credential of a call is `options.accessToken` when that is neither `null` nor
left out (the empty string and `0` are such values: they are used as they are and the
store is not read), and the value that `tokenManager.getToken()` returns during the call
otherwise; the default `Authorization` header of the request sent is the text `Bearer `
followed by the text of that credential. -/
theorem C1_credential_resolution (env : Platform) (tm : TokenManager) (o : Options) :
    (o.accessToken ≠ .null → o.accessToken ≠ .undefined →
      (resolveAccessToken tm o).1 = o.accessToken ∧
      Event.getToken ∉ (apiRequest env tm o).trace) ∧
    ((o.accessToken = .null ∨ o.accessToken = .undefined) →
      (resolveAccessToken tm o).1 = tm.getToken.1 ∧
      Event.getToken ∈ (apiRequest env tm o).trace) ∧
    (∀ p ∈ (apiRequest env tm o).sent,
      ∃ accessToken, (resolveAccessToken tm o).1.toStr = .ok accessToken ∧
        p.2.headers =
          Props.spread
            (Props.spread [] (defaultHeaders (o.fileType.getD "application/json") accessToken))
            (o.headers.getD []) ∧
        Props.get (defaultHeaders (o.fileType.getD "application/json") accessToken)
          "Authorization" = some (.str ("Bearer " ++ accessToken)) ∧
        (Props.get (o.headers.getD []) "Authorization" = none →
          Props.get p.2.headers "Authorization" = some (.str ("Bearer " ++ accessToken)))) ∧
    (∀ accessToken text,
      (resolveAccessToken tm o).1.toStr = .ok accessToken →
      (requestBody (o.method.getD "GET") (o.body.orDefault .null)).1 = .ok text →
      ∃ p, (apiRequest env tm o).sent = [p]) ∧
    (∀ s : String, JSVal.toStr (.str s) = .ok s) ∧
    JSVal.toStr (.num 0) = .ok "0" := by
  refine ⟨?_, ?_, ?_, ?_, fun _ => rfl, rfl⟩
  · intro h1 h2
    constructor
    · rw [resolveAccessToken_value]
      cases h : o.accessToken <;> simp_all
    · rw [getToken_mem_trace]
      rintro (h | h)
      · exact h1 h
      · exact h2 h
  · intro h
    constructor
    · rw [resolveAccessToken_value]
      rcases h with h | h <;> simp [h, TokenManager.getToken]
    · exact (getToken_mem_trace env tm o).mpr h
  · intro p hp
    obtain ⟨accessToken, text, h1, _, rfl⟩ := (mem_sent_iff env tm o p).mp hp
    refine ⟨accessToken, h1, rfl, ?_, ?_⟩
    · simp [get_defaultHeaders]
    · intro hnone
      simp [get_mergedHeaders, hnone, get_defaultHeaders]
  · intro accessToken text h1 h2
    rw [apiRequest_sent, h1]
    simp only [h2]
    exact ⟨_, rfl⟩

/-- With a token in the store: the options `0` and `""` are used as they are and the store
is not read, giving `Bearer 0` and `Bearer `; with `null` the stored token is read, giving
`Bearer stored`. -/
theorem C1_credential_resolution_witness :
    ((resolveAccessToken storeSet (itemsWith (.num 0))).1 = .num 0 ∧
      Event.getToken ∉ (apiRequest hostCreated storeSet (itemsWith (.num 0))).trace) ∧
    ((resolveAccessToken storeSet (itemsWith (.str ""))).1 = .str "" ∧
      Event.getToken ∉ (apiRequest hostCreated storeSet (itemsWith (.str ""))).trace) ∧
    ((resolveAccessToken storeSet (itemsWith .null)).1 = .str "stored" ∧
      Event.getToken ∈ (apiRequest hostCreated storeSet (itemsWith .null)).trace) ∧
    (∃ p, (apiRequest hostCreated storeSet (itemsWith (.num 0))).sent = [p] ∧
      Props.get p.2.headers "Authorization" = some (.str "Bearer 0")) ∧
    (∃ p, (apiRequest hostCreated storeSet (itemsWith .null)).sent = [p] ∧
      Props.get p.2.headers "Authorization" = some (.str "Bearer stored")) := by
  refine ⟨(C1_credential_resolution hostCreated storeSet (itemsWith (.num 0))).1
      (by simp [itemsWith]) (by simp [itemsWith]),
    (C1_credential_resolution hostCreated storeSet (itemsWith (.str ""))).1
      (by simp [itemsWith]) (by simp [itemsWith]),
    (C1_credential_resolution hostCreated storeSet (itemsWith .null)).2.1 (Or.inl rfl),
    ?_, ?_⟩
  · obtain ⟨p, hp⟩ :=
      (C1_credential_resolution hostCreated storeSet (itemsWith (.num 0))).2.2.2.1
        "0" none rfl rfl
    refine ⟨p, hp, ?_⟩
    have hmem : p ∈ (apiRequest hostCreated storeSet (itemsWith (.num 0))).sent := by
      rw [hp]; exact List.mem_singleton.mpr rfl
    obtain ⟨accessToken, h1, -, -, h4⟩ :=
      (C1_credential_resolution hostCreated storeSet (itemsWith (.num 0))).2.2.1 p hmem
    have h0 : (resolveAccessToken storeSet (itemsWith (.num 0))).1.toStr = .ok "0" := rfl
    rw [h0] at h1
    injection h1 with h1
    subst h1
    exact h4 rfl
  · obtain ⟨p, hp⟩ :=
      (C1_credential_resolution hostCreated storeSet (itemsWith .null)).2.2.2.1
        "stored" none rfl rfl
    refine ⟨p, hp, ?_⟩
    have hmem : p ∈ (apiRequest hostCreated storeSet (itemsWith .null)).sent := by
      rw [hp]; exact List.mem_singleton.mpr rfl
    obtain ⟨accessToken, h1, -, -, h4⟩ :=
      (C1_credential_resolution hostCreated storeSet (itemsWith .null)).2.2.1 p hmem
    have h0 : (resolveAccessToken storeSet (itemsWith .null)).1.toStr = .ok "stored" := rfl
    rw [h0] at h1
    injection h1 with h1
    subst h1
    exact h4 rfl

/-- The claim C10 fails as it stands: not every call without `accessToken` is sent. A
POST that leaves `accessToken` out and whose body holds a BigInt stops at line 52, on a
store never set and on a cleared store alike: nothing is handed to `fetch`. -/
theorem C10_counterexample :
    postBigIntNoToken.accessToken = .undefined ∧
    (apiRequest hostCreated TokenManager.new postBigIntNoToken).sent = [] ∧
    (apiRequest hostCreated TokenManager.new.clearToken.2 postBigIntNoToken).sent = [] ∧
    (apiRequest hostCreated TokenManager.new.clearToken.2 postBigIntNoToken).outcome =
      .error (.native ⟨"TypeError", "Do not know how to serialize a BigInt"⟩) :=
  ⟨rfl, rfl, rfl, rfl⟩

/-- C10, amended. A call never changes the token store. When `accessToken` is `null` or
left out and line 52 builds the body (which every method other than `POST` and `PATCH`
grants), the call sends its request, on a cleared store, on a store never set and on a
store that holds a string alike: with the default `Authorization` header `Bearer null`
after `clearToken`, `Bearer ` on a store never set, and `Bearer ` followed by the string
otherwise. The call is sent without a credential in exactly the cases in which it is
sent with one, and the header is there unless the caller's `headers` replace it. -/
theorem C10_missing_credential (env : Platform) (tm : TokenManager) (o : Options) :
    (apiRequest env tm o).store = tm ∧
    ((o.accessToken = .null ∨ o.accessToken = .undefined) →
      (∀ text,
        (requestBody (o.method.getD "GET") (o.body.orDefault .null)).1 = .ok text →
        (apiRequest env tm.clearToken.2 o).sent =
          [(completeUrl o.url (o.queryParams.getD ""),
            { method := o.method.getD "GET"
              headers := mergedHeaders (o.fileType.getD "application/json") "null"
                (o.headers.getD [])
              body := text })] ∧
        (apiRequest env TokenManager.new o).sent =
          [(completeUrl o.url (o.queryParams.getD ""),
            { method := o.method.getD "GET"
              headers := mergedHeaders (o.fileType.getD "application/json") ""
                (o.headers.getD [])
              body := text })]) ∧
      (∀ (s : String) text,
        (requestBody (o.method.getD "GET") (o.body.orDefault .null)).1 = .ok text →
        (apiRequest env (tm.setToken (.str s)).2 o).sent =
          [(completeUrl o.url (o.queryParams.getD ""),
            { method := o.method.getD "GET"
              headers := mergedHeaders (o.fileType.getD "application/json") s
                (o.headers.getD [])
              body := text })]) ∧
      (∀ s : String,
        ((apiRequest env tm.clearToken.2 o).sent = [] ↔
          (apiRequest env (tm.setToken (.str s)).2 o).sent = []) ∧
        ((apiRequest env TokenManager.new o).sent = [] ↔
          (apiRequest env (tm.setToken (.str s)).2 o).sent = [])) ∧
      (¬ (o.method.getD "GET" = "POST" ∨ o.method.getD "GET" = "PATCH") →
        (requestBody (o.method.getD "GET") (o.body.orDefault .null)).1 = .ok none) ∧
      Props.get (defaultHeaders (o.fileType.getD "application/json") "null") "Authorization" =
        some (.str "Bearer null") ∧
      Props.get (defaultHeaders (o.fileType.getD "application/json") "") "Authorization" =
        some (.str "Bearer ") ∧
      (Props.get (o.headers.getD []) "Authorization" = none →
        Props.get (mergedHeaders (o.fileType.getD "application/json") "null"
          (o.headers.getD [])) "Authorization" = some (.str "Bearer null") ∧
        Props.get (mergedHeaders (o.fileType.getD "application/json") ""
          (o.headers.getD [])) "Authorization" = some (.str "Bearer ") ∧
        ∀ s : String,
          Props.get (mergedHeaders (o.fileType.getD "application/json") s
            (o.headers.getD [])) "Authorization" = some (.str ("Bearer " ++ s)))) := by
  refine ⟨apiRequest_store env tm o, fun hnull => ?_⟩
  have hc : (resolveAccessToken tm.clearToken.2 o).1.toStr = .ok "null" := by
    rw [resolveAccessToken_value]
    rcases hnull with h | h <;> simp [h, TokenManager.clearToken, JSVal.toStr]
  have hn : (resolveAccessToken TokenManager.new o).1.toStr = .ok "" := by
    rw [resolveAccessToken_value]
    rcases hnull with h | h <;> simp [h, TokenManager.new, JSVal.toStr]
  have hset : ∀ s : String, (resolveAccessToken (tm.setToken (.str s)).2 o).1.toStr = .ok s := by
    intro s
    rw [resolveAccessToken_value]
    rcases hnull with h | h <;> simp [h, TokenManager.setToken, JSVal.toStr]
  refine ⟨?_, ?_, ?_, ?_, ?_, ?_, ?_⟩
  · intro text h2
    constructor
    · rw [apiRequest_sent, hc]
      simp only [h2]
    · rw [apiRequest_sent, hn]
      simp only [h2]
  · intro s text h2
    rw [apiRequest_sent, hset s]
    simp only [h2]
  · intro s
    rw [apiRequest_sent, apiRequest_sent, apiRequest_sent, hc, hn, hset s]
    cases (requestBody (o.method.getD "GET") (o.body.orDefault .null)).1 <;> simp
  · intro hm
    simp only [requestBody, hm, if_false]
  · simp [get_defaultHeaders]
  · rw [get_defaultHeaders]
    simp only [String.reduceEq, if_false, if_true]
    rfl
  · intro hnone
    refine ⟨?_, ?_, ?_⟩
    · simp [get_mergedHeaders, hnone, get_defaultHeaders]
    · rw [get_mergedHeaders, hnone, get_defaultHeaders]
      simp only [String.reduceEq, if_false, if_true, Option.none_or]
      rfl
    · intro s
      simp [get_mergedHeaders, hnone, get_defaultHeaders]

/-- A GET without `accessToken`: after `clearToken` the request goes out with
`Authorization: Bearer null`, on a fresh store with `Authorization: Bearer `. -/
theorem C10_missing_credential_witness :
    (apiRequest hostCreated storeSet.clearToken.2 (itemsWith .undefined)).sent =
      [("https://api.example.com/items",
        { method := "GET", headers := defaultHeaders "application/json" "null",
          body := none })] ∧
    (apiRequest hostCreated TokenManager.new (itemsWith .undefined)).sent =
      [("https://api.example.com/items",
        { method := "GET", headers := defaultHeaders "application/json" "",
          body := none })] :=
  (C10_missing_credential hostCreated storeSet (itemsWith .undefined)).2 (Or.inr rfl) |>.1
    none rfl
end ApiHandler
